import Mathlib

/-
  Shallow embedding of the peepobot update dispatch core.

  Source files:
    * app.go         (package app): App, New, Run, handleUpdate
    * internal/handler/general/handler.go (package general):
        MessageResponse, StartResponse, HelpResponse

  Conventions of the embedding:
    * Go time.Time and time.Duration are nanosecond counts, embedded as
      Int (chat identifiers, int64 in Go, are Int as well).
    * The go-cache instance `lastUsage` is an association list from the
      string key fmt.Sprint(chatID) to the stored time.Time value, together
      with go-cache's expiration discipline: `cache.New(cfg.CommandCooldown,
      5*time.Minute)` sets the default expiration to the cooldown duration,
      so Get reports an item as absent once `now > storedTime + cooldown`
      (the 5-minute janitor only frees memory and is not observable through
      Get/Set, so it is not modelled).
    * Sending a message / spawning a handler goroutine is recorded as an
      Action in the returned action list; Go's handleUpdate spawns exactly
      one goroutine per taken branch.
    * A nil-pointer dereference panic is modelled as the result `none`.
-/

namespace Peepobot

/-- Fields of config.Config used by app.go. -/
structure Config where
  apiKey : String
  isDebug : Bool
  commandCooldown : Int
deriving DecidableEq

/-- The fields of tgbotapi.Message that handleUpdate reads: Chat.ID,
IsCommand() and Command() (the flat command token, without the slash). -/
structure Message where
  chatId : Int
  isCommand : Bool
  command : String
  text : String
deriving DecidableEq

/-- tgbotapi.Update as consumed by handleUpdate: Message is a pointer and
may be nil. -/
structure Update where
  message : Option Message
deriving DecidableEq

/-- The item store of the go-cache instance: key fmt.Sprint(chatID) mapped
to the stored time.Time. -/
abbrev CacheItems := List (String × Int)

/-- go-cache Get with the cache's default expiration: an item set at time t
is reported absent once now > t + expiration. -/
def cacheGet (items : CacheItems) (expiration : Int) (now : Int)
    (k : String) : Option Int :=
  match items.lookup k with
  | some t => if now > t + expiration then none else some t
  | none => none

/-- go-cache Set with cache.DefaultExpiration: overwrites the key's entry
with the new stored time. -/
def cacheSet (items : CacheItems) (k : String) (t : Int) : CacheItems :=
  (k, t) :: items.filter (fun p => p.1 ≠ k)

/-- The raw stored timestamp for a key, ignoring expiration (what the cache
physically records for the chat). -/
def cachePeek (items : CacheItems) (k : String) : Option Int :=
  items.lookup k

/-- Round num/den to the nearest integer, ties to even (the rounding of
Go's %.1f formatting); den is assumed positive, num nonnegative here. -/
def roundHalfEven (num den : Int) : Int :=
  let q := num.ediv den
  let r := num.emod den
  if 2 * r < den then q
  else if den < 2 * r then q + 1
  else if q % 2 = 0 then q else q + 1

/-- The number of deciseconds displayed by fmt.Sprintf with verb %.1f
applied to waitTime.Seconds(): the duration in nanoseconds rounded to the
nearest tenth of a second (float64 rounding of the quotient is abstracted
to exact rational rounding). -/
def displayDeciseconds (d : Int) : Int :=
  roundHalfEven d 100000000

/-- Render a nonnegative decisecond count the way %.1f does: integer part,
a dot, one digit. -/
def formatOneDecimal (deci : Int) : String :=
  toString (deci.ediv 10) ++ "." ++ toString (deci.emod 10)

/-- The cooldown denial text: "Command on cooldown for %.1f sec" with the
remaining wait time in seconds. -/
def cooldownMsg (waitTime : Int) : String :=
  "Command on cooldown for " ++ formatOneDecimal (displayDeciseconds waitTime)
    ++ " sec"

def commandsOnlyText : String := "I can only handle listed commands in this chat!"

def unknownCommandText : String := "Unknown command"

/-- One outbound effect of handleUpdate: each constructor is one goroutine
spawned on a handler (general or image). -/
inductive Action where
  | messageResponse (chatId : Int) (text : String)
  | startResponse (chatId : Int)
  | helpResponse (chatId : Int)
  | getImage (m : Message)
  | createSubscription (m : Message)
  | deleteSubscription (m : Message)
  | getSubscription (m : Message)
deriving DecidableEq

/-- Result of one handleUpdate call: the handler goroutines spawned and the
lastUsage cache after the call. -/
structure HandleResult where
  actions : List Action
  lastUsage : CacheItems
deriving DecidableEq

/-- Lines 101-109 of app.go: the cooldown gate. Looks the chat's key up in
lastUsage; if found (and unexpired) with waitTime = cooldown - elapsed
positive, the update is denied with that remaining wait (some waitTime);
otherwise it is admitted (none). -/
def cooldownCheck (cfg : Config) (lastUsage : CacheItems) (now : Int)
    (key : String) : Option Int :=
  match cacheGet lastUsage cfg.commandCooldown now key with
  | some lastTime =>
    let waitTime := cfg.commandCooldown - (now - lastTime)
    if 0 < waitTime then some waitTime else none
  | none => none

/-- The switch on update.Message.Command() at lines 124-143 of app.go: each
recognized token spawns its handler, the default branch sends "Unknown
command". -/
def routeCommand (m : Message) : Action :=
  match m.command with
  | "start" => Action.startResponse m.chatId
  | "peepo" => Action.getImage m
  | "sub" => Action.createSubscription m
  | "unsub" => Action.deleteSubscription m
  | "sub_info" => Action.getSubscription m
  | "help" => Action.helpResponse m.chatId
  | _ => Action.messageResponse m.chatId unknownCommandText

/-- Lines 100-144 of app.go, (a *App) handleUpdate. Line 101 evaluates
update.Message.Chat.ID unconditionally, so a nil Message panics right
there (result none); consequently the `update.Message == nil` guard at
line 113 can never fire and has no counterpart branch below. On the
admitted path line 111 writes time.Now() into lastUsage before the
IsCommand check. -/
def handleUpdate (cfg : Config) (lastUsage : CacheItems) (now : Int)
    (update : Update) : Option HandleResult :=
  match update.message with
  | none => none
  | some msg =>
    match cooldownCheck cfg lastUsage now (toString msg.chatId) with
    | some waitTime =>
      some ⟨[Action.messageResponse msg.chatId (cooldownMsg waitTime)], lastUsage⟩
    | none =>
      let lastUsage := cacheSet lastUsage (toString msg.chatId) now
      if msg.isCommand then
        some ⟨[routeCommand msg], lastUsage⟩
      else
        some ⟨[Action.messageResponse msg.chatId commandsOnlyText], lastUsage⟩

/-- One event multiplexed by the select loop in Run (lines 83-97): either
an update from updatesChan or a delivery on the SIGINT/SIGTERM channel. -/
inductive Event where
  | update (u : Update)
  | signal
deriving DecidableEq

/-- An observable step of Run: handing an update to handleUpdate, calling
bot.StopReceivingUpdates(), or closing the database. -/
inductive RunEffect where
  | handleUpd (u : Update)
  | stopReceivingUpdates
  | closeDB
deriving DecidableEq

/-- Lines 74-98 of app.go, (a *App) Run, as a consumer of the stream of
select outcomes: each update event is handed to handleUpdate; the first
signal event runs bot.StopReceivingUpdates() then db.Close() and returns,
ignoring everything after it. -/
def Run : List Event → List RunEffect
  | [] => []
  | Event.update u :: rest => RunEffect.handleUpd u :: Run rest
  | Event.signal :: _ => [RunEffect.stopReceivingUpdates, RunEffect.closeDB]

/-- tgbotapi.BotAPI as far as app.go touches it: created from the API key,
Debug assigned from config. -/
structure Bot where
  apiKey : String
  debug : Bool
deriving DecidableEq

/-- database.DB handle (opaque to app.go). -/
structure DB where
  handle : Nat
deriving DecidableEq

/-- The App struct of app.go (handlers are built from cfg, bot and the
services and cannot fail; they carry no state of their own beyond these,
so they are not embedded as a field). -/
structure App where
  cfg : Config
  db : DB
  bot : Bot
  lastUsage : CacheItems
deriving DecidableEq

/-- Lines 28-72 of app.go, New. tgbotapi.NewBotAPI and database.New are
external calls whose outcomes are passed in; log.Fatalf terminates the
process and is modelled as Except.error, so an error value means the
process died before Run could ever be entered. On success bot.Debug is
set from cfg and lastUsage starts as the empty cache. -/
def New (cfg : Config) (botResult : Except String Bot)
    (dbResult : Except String DB) : Except String App :=
  match botResult with
  | Except.error e => Except.error ("Error creating bot: " ++ e)
  | Except.ok bot =>
    match dbResult with
    | Except.error e => Except.error ("Error connecting to database: " ++ e)
    | Except.ok db =>
      Except.ok
        { cfg := cfg
          db := db
          bot := { bot with debug := cfg.isDebug }
          lastUsage := [] }

/-- Outcome of bot.Send inside a general handler. -/
inductive SendResult where
  | ok
  | error (e : String)
deriving DecidableEq

/-- Observable behaviour of one general-handler call: the send attempts
made (chatID, text) and the log lines written. The handlers hold no
mutable state, so there is nothing else a call could change. -/
structure HandlerOutcome where
  sends : List (Int × String)
  logs : List String
deriving DecidableEq

/-- handler.go lines 23-28, MessageResponse: one bot.Send; on error one
log.Printf line and nothing else — the function returns normally either
way (the embedding is a total function on both SendResult branches). -/
def MessageResponse (chatID : Int) (message : String)
    (sendRes : SendResult) : HandlerOutcome :=
  { sends := [(chatID, message)]
    logs :=
      match sendRes with
      | SendResult.ok => []
      | SendResult.error e => ["Error sending message: " ++ e] }

def startText : String :=
  "Welcome to peepobot. Now you can use any available command."

/-- handler.go lines 30-37, StartResponse. -/
def StartResponse (chatID : Int) (sendRes : SendResult) : HandlerOutcome :=
  { sends := [(chatID, startText)]
    logs :=
      match sendRes with
      | SendResult.ok => []
      | SendResult.error e => ["Error sending message: " ++ e] }

def helpText : String :=
  "Command list help:\n" ++
    "/peepo - Get random picture;\n" ++
    "/sub - Subscribe to receive pictures periodically;\n" ++
    "/sub_info - Get info about current subscription;\n" ++
    "/unsub - Drop current subscription;\n" ++
    "/help - Get this list."

/-- handler.go lines 39-51, HelpResponse. -/
def HelpResponse (chatID : Int) (sendRes : SendResult) : HandlerOutcome :=
  { sends := [(chatID, helpText)]
    logs :=
      match sendRes with
      | SendResult.ok => []
      | SendResult.error e => ["Error sending message: " ++ e] }


/-- Concrete config used by the witnesses: a 5-second (5e9 ns) cooldown,
matching the scenario in the spec. -/
def cfgEx : Config := ⟨"key", false, 5000000000⟩

/-- A plain-text non-command message from chat 1. -/
def helloMsg : Message := ⟨1, false, "", "hello"⟩

/-- The /peepo content command from chat 1. -/
def peepoMsg : Message := ⟨1, true, "peepo", "/peepo"⟩

/-- A wrongly-capitalized command token from chat 1. -/
def startCapMsg : Message := ⟨1, true, "Start", "/Start"⟩

/-- An update wrapping the /peepo command, used by the Run witness. -/
def updEx : Update := ⟨some peepoMsg⟩

lemma cachePeek_set_self (items : CacheItems) (k : String) (t : Int) :
    cachePeek (cacheSet items k t) k = some t := by
  simp [cachePeek, cacheSet, List.lookup]

lemma lookup_cacheSet_self (items : CacheItems) (k : String) (t : Int) :
    (cacheSet items k t).lookup k = some t := by
  simp [cacheSet, List.lookup]

lemma cooldownCheck_after_set (cfg : Config) (items : CacheItems)
    (k : String) (t now' : Int) (h : now' < t + cfg.commandCooldown) :
    cooldownCheck cfg (cacheSet items k t) now' k
      = some (t + cfg.commandCooldown - now') := by
  have hp := lookup_cacheSet_self items k t
  simp only [cooldownCheck, cacheGet, hp]
  rw [if_neg (show ¬ now' > t + cfg.commandCooldown by omega)]
  show (if 0 < cfg.commandCooldown - (now' - t) then _ else none) = _
  rw [if_pos (show 0 < cfg.commandCooldown - (now' - t) by omega)]
  congr 1
  omega

lemma handleUpdate_denied (cfg : Config) (items : CacheItems) (now : Int)
    (m : Message) (w : Int)
    (h : cooldownCheck cfg items now (toString m.chatId) = some w) :
    handleUpdate cfg items now ⟨some m⟩
      = some ⟨[Action.messageResponse m.chatId (cooldownMsg w)], items⟩ := by
  simp [handleUpdate, h]

lemma handleUpdate_admitted (cfg : Config) (items : CacheItems) (now : Int)
    (m : Message)
    (h : cooldownCheck cfg items now (toString m.chatId) = none) :
    handleUpdate cfg items now ⟨some m⟩
      = some ⟨[bif m.isCommand then routeCommand m
                else Action.messageResponse m.chatId commandsOnlyText],
              cacheSet items (toString m.chatId) now⟩ := by
  simp only [handleUpdate, h]
  cases hb : m.isCommand <;> simp [hb]

lemma cooldownCheck_eq_none_iff (cfg : Config) (items : CacheItems)
    (now : Int) (k : String) :
    cooldownCheck cfg items now k = none ↔
      cachePeek items k = none ∨
        ∃ t, cachePeek items k = some t ∧ cfg.commandCooldown ≤ now - t := by
  unfold cooldownCheck cacheGet cachePeek
  rcases hl : items.lookup k with _ | t <;> simp only [hl]
  · simp
  · by_cases hexp : now > t + cfg.commandCooldown
    · rw [if_pos hexp]
      constructor
      · intro _
        exact Or.inr ⟨t, rfl, by omega⟩
      · intro _
        rfl
    · rw [if_neg hexp]
      show (if 0 < cfg.commandCooldown - (now - t) then _ else none) = _ ↔ _
      by_cases hw : 0 < cfg.commandCooldown - (now - t)
      · rw [if_pos hw]
        constructor
        · intro hcon
          exact absurd hcon (by simp)
        · rintro (h1 | ⟨t', ht', hle⟩)
          · exact absurd h1 (by simp)
          · rw [Option.some.injEq] at ht'
            subst ht'
            omega
      · rw [if_neg hw]
        constructor
        · intro _
          exact Or.inr ⟨t, rfl, by omega⟩
        · intro _
          rfl




/-- C1: Cooldown gate contract: an update is admitted iff its chat has no
recorded last-served time or the elapsed time since it is at least the
cooldown duration; on admission the current time is recorded as the
chat's last-served time, and any update from the same chat arriving at
now' < now + cooldown after an admission at now is denied with remaining
wait (now + cooldown) - now', so no two updates from one chat are
admitted within one cooldown window. -/
theorem cooldown_gate_contract (cfg : Config) (st : CacheItems) (now : Int)
    (m m' : Message) (hsame : m'.chatId = m.chatId) :
    (cooldownCheck cfg st now (toString m.chatId) = none ↔
      cachePeek st (toString m.chatId) = none ∨
        ∃ t, cachePeek st (toString m.chatId) = some t ∧
          cfg.commandCooldown ≤ now - t)
    ∧ (cooldownCheck cfg st now (toString m.chatId) = none →
        ∃ r, handleUpdate cfg st now ⟨some m⟩ = some r ∧
          cachePeek r.lastUsage (toString m.chatId) = some now ∧
          ∀ now', now' < now + cfg.commandCooldown →
            cooldownCheck cfg r.lastUsage now' (toString m.chatId)
              = some (now + cfg.commandCooldown - now')
            ∧ handleUpdate cfg r.lastUsage now' ⟨some m'⟩
              = some ⟨[Action.messageResponse m'.chatId
                  (cooldownMsg (now + cfg.commandCooldown - now'))],
                  r.lastUsage⟩) := by
  refine ⟨cooldownCheck_eq_none_iff cfg st now _, ?_⟩
  intro hadm
  refine ⟨_, handleUpdate_admitted cfg st now m hadm,
    cachePeek_set_self st _ now, ?_⟩
  intro now' hlt
  have hc : cooldownCheck cfg (cacheSet st (toString m.chatId) now) now'
      (toString m.chatId) = some (now + cfg.commandCooldown - now') := by
    exact cooldownCheck_after_set cfg st (toString m.chatId) now now'
      (by omega)
  have hc' : cooldownCheck cfg (cacheSet st (toString m.chatId) now) now'
      (toString m'.chatId) = some (now + cfg.commandCooldown - now') := by
    rw [hsame]
    exact hc
  exact ⟨hc, handleUpdate_denied cfg _ now' m' _ hc'⟩

/-- C1 witness: cooldown 5s, chat 1 admitted at t = 0; at t = 2s the gate
denies with remaining 3s and handleUpdate answers only with the cooldown
notice. -/
theorem cooldown_gate_contract_witness :
    cooldownCheck cfgEx [("1", 0)] 2000000000 "1" = some 3000000000
    ∧ handleUpdate cfgEx [("1", 0)] 2000000000 ⟨some peepoMsg⟩
      = some ⟨[Action.messageResponse 1 (cooldownMsg 3000000000)],
          [("1", 0)]⟩ := by
  obtain ⟨r, hr, hpeek, hnext⟩ :=
    (cooldown_gate_contract cfgEx [] 0 peepoMsg peepoMsg rfl).2 (by decide)
  have hval : handleUpdate cfgEx [] 0 ⟨some peepoMsg⟩
      = some ⟨[Action.getImage peepoMsg], [("1", 0)]⟩ := by decide
  rw [hval] at hr
  injection hr with hr
  subst hr
  have h2 := hnext 2000000000 (by decide)
  exact ⟨h2.1, h2.2⟩

/-- C2: a denied cooldown check does not modify the chat's recorded
last-served time: on denial handleUpdate returns the lastUsage cache
unchanged, so the stored timestamp is exactly what it was before. -/
theorem denied_check_preserves_last_served (cfg : Config) (st : CacheItems)
    (now : Int) (m : Message) (w : Int)
    (hden : cooldownCheck cfg st now (toString m.chatId) = some w) :
    Option.map HandleResult.lastUsage (handleUpdate cfg st now ⟨some m⟩)
      = some st
    ∧ Option.map (fun r => cachePeek r.lastUsage (toString m.chatId))
        (handleUpdate cfg st now ⟨some m⟩)
      = some (cachePeek st (toString m.chatId)) := by
  rw [handleUpdate_denied cfg st now m w hden]
  exact ⟨rfl, rfl⟩

/-- C2 witness: chat 1 last served at t = 0, denied at t = 2s: the cache
and the chat's stored timestamp are unchanged. -/
theorem denied_check_preserves_last_served_witness :
    Option.map HandleResult.lastUsage
        (handleUpdate cfgEx [("1", 0)] 2000000000 ⟨some peepoMsg⟩)
      = some [("1", 0)]
    ∧ Option.map (fun r => cachePeek r.lastUsage "1")
        (handleUpdate cfgEx [("1", 0)] 2000000000 ⟨some peepoMsg⟩)
      = some (some 0) := by
  have h := denied_check_preserves_last_served cfgEx [("1", 0)] 2000000000
    peepoMsg 3000000000 (by decide)
  exact ⟨h.1, h.2⟩

/-- C3 counterexample: the admitted non-command text "hello" from
never-served chat 1 is answered with the commands-only notice, but the
cooldown state IS mutated: before the update no last-served time is
recorded for chat 1, afterwards time 0 is. -/
theorem commands_only_no_mutation_cex :
    handleUpdate cfgEx [] 0 ⟨some helloMsg⟩
      = some ⟨[Action.messageResponse 1 commandsOnlyText], [("1", 0)]⟩
    ∧ cachePeek [] "1" = none
    ∧ cachePeek [("1", (0 : Int))] "1" = some 0 :=
  ⟨by decide, rfl, by decide⟩

/-- C3 amended: an admitted non-command message is answered with exactly
the generic commands-only notice and processing stops (no routing,
subscription state untouched), but the chat's last-served time is
updated to the current time. -/
theorem commands_only_notice_updates_last_served (cfg : Config)
    (st : CacheItems) (now : Int) (m : Message)
    (hadm : cooldownCheck cfg st now (toString m.chatId) = none)
    (hnc : m.isCommand = false) :
    handleUpdate cfg st now ⟨some m⟩
      = some ⟨[Action.messageResponse m.chatId commandsOnlyText],
          cacheSet st (toString m.chatId) now⟩ := by
  rw [handleUpdate_admitted cfg st now m hadm, hnc]
  rfl

/-- C3 amended witness: "hello" from chat 1 at t = 0 on an empty cache. -/
theorem commands_only_notice_updates_last_served_witness :
    handleUpdate cfgEx [] 0 ⟨some helloMsg⟩
      = some ⟨[Action.messageResponse 1 commandsOnlyText], [("1", 0)]⟩ := by
  have h := commands_only_notice_updates_last_served cfgEx [] 0 helloMsg
    (by decide) rfl
  exact h.trans (by decide)

/-- C4: an update whose Message is nil is NOT dropped silently: line 101
dereferences update.Message.Chat.ID before the nil guard on line 113, so
handleUpdate faults (modelled as none) instead of terminating normally. -/
theorem nil_message_update_faults (cfg : Config) (st : CacheItems)
    (now : Int) :
    handleUpdate cfg st now ⟨none⟩ = none := rfl

/-- C5: a denied update gets exactly one cooldown notice carrying the
remaining wait in seconds rounded to one decimal, and processing stops:
the notice is the only action, so no command handler runs and no further
routing happens. -/
theorem denial_single_notice_and_stops (cfg : Config) (st : CacheItems)
    (now : Int) (m : Message) (w : Int)
    (hden : cooldownCheck cfg st now (toString m.chatId) = some w) :
    handleUpdate cfg st now ⟨some m⟩
      = some ⟨[Action.messageResponse m.chatId
          ("Command on cooldown for "
            ++ formatOneDecimal (displayDeciseconds w) ++ " sec")], st⟩ :=
  handleUpdate_denied cfg st now m w hden

/-- C5 witness: denial with 3s remaining renders "3.0" seconds. -/
theorem denial_single_notice_and_stops_witness :
    handleUpdate cfgEx [("1", 0)] 2000000000 ⟨some peepoMsg⟩
      = some ⟨[Action.messageResponse 1 "Command on cooldown for 3.0 sec"],
          [("1", 0)]⟩ := by
  have h := denial_single_notice_and_stops cfgEx [("1", 0)] 2000000000
    peepoMsg 3000000000 (by decide)
  exact h.trans (by decide)

/-- C6: router dispatch: an admitted command update spawns exactly the
handler of its token; start, help, peepo, sub, unsub, sub_info map to
their handlers case-sensitively, and any other token gets the
unknown-command notice. -/
theorem command_router_dispatch (cfg : Config) (st : CacheItems) (now : Int)
    (m : Message)
    (hadm : cooldownCheck cfg st now (toString m.chatId) = none)
    (hcmd : m.isCommand = true) :
    handleUpdate cfg st now ⟨some m⟩
      = some ⟨[routeCommand m], cacheSet st (toString m.chatId) now⟩
    ∧ (m.command = "start" → routeCommand m = Action.startResponse m.chatId)
    ∧ (m.command = "help" → routeCommand m = Action.helpResponse m.chatId)
    ∧ (m.command = "peepo" → routeCommand m = Action.getImage m)
    ∧ (m.command = "sub" → routeCommand m = Action.createSubscription m)
    ∧ (m.command = "unsub" → routeCommand m = Action.deleteSubscription m)
    ∧ (m.command = "sub_info" → routeCommand m = Action.getSubscription m)
    ∧ (m.command ∉ ["start", "help", "peepo", "sub", "unsub", "sub_info"] →
        routeCommand m = Action.messageResponse m.chatId unknownCommandText)
    := by
  refine ⟨?_, fun h => by simp [routeCommand, h],
    fun h => by simp [routeCommand, h], fun h => by simp [routeCommand, h],
    fun h => by simp [routeCommand, h], fun h => by simp [routeCommand, h],
    fun h => by simp [routeCommand, h], ?_⟩
  · rw [handleUpdate_admitted cfg st now m hadm, hcmd]
    rfl
  · intro hnot
    unfold routeCommand
    split <;> simp_all

/-- C6 witness: the wrongly-capitalized token "Start" is routed to the
unknown-command notice. -/
theorem command_router_dispatch_witness :
    handleUpdate cfgEx [] 0 ⟨some startCapMsg⟩
      = some ⟨[Action.messageResponse 1 unknownCommandText], [("1", 0)]⟩ := by
  have h := command_router_dispatch cfgEx [] 0 startCapMsg (by decide) rfl
  rw [h.1, h.2.2.2.2.2.2.2 (by decide)]
  decide

/-- C7: every admitted update writes the chat's last-served time before
the message-presence and command-form checks (the recorded cache is
cacheSet st key now whatever isCommand is), so a non-command text or an
unknown command starts a full cooldown window denying the chat's next
update within cooldownDuration. -/
theorem last_served_written_before_checks (cfg : Config) (st : CacheItems)
    (now : Int) (m : Message)
    (hadm : cooldownCheck cfg st now (toString m.chatId) = none) :
    Option.map HandleResult.lastUsage (handleUpdate cfg st now ⟨some m⟩)
      = some (cacheSet st (toString m.chatId) now)
    ∧ cachePeek (cacheSet st (toString m.chatId) now) (toString m.chatId)
      = some now
    ∧ ∀ now', now' < now + cfg.commandCooldown →
        cooldownCheck cfg (cacheSet st (toString m.chatId) now) now'
            (toString m.chatId)
          = some (now + cfg.commandCooldown - now') := by
  refine ⟨?_, cachePeek_set_self st _ now, ?_⟩
  · rw [handleUpdate_admitted cfg st now m hadm]
    rfl
  · intro now' h
    exact cooldownCheck_after_set cfg st (toString m.chatId) now now'
      (by omega)

/-- C7 witness: after the non-command "hello" at t = 0, chat 1's cache
records t = 0 and t = 2s is denied with 3s remaining. -/
theorem last_served_written_before_checks_witness :
    Option.map HandleResult.lastUsage (handleUpdate cfgEx [] 0 ⟨some helloMsg⟩)
      = some [("1", 0)]
    ∧ cooldownCheck cfgEx [("1", 0)] 2000000000 "1" = some 3000000000 := by
  have h := last_served_written_before_checks cfgEx [] 0 helloMsg (by decide)
  exact ⟨h.1, h.2.2 2000000000 (by decide)⟩

/-- C8: on a shutdown signal the dispatch loop handles no further inbound
updates and, on the signal exit path, stops receiving updates and then
closes the database; before the signal it only hands updates to
handleUpdate. -/
theorem shutdown_stops_updates_and_closes_db (pre post : List Event)
    (h : Event.signal ∉ pre) :
    Run (pre ++ Event.signal :: post)
      = Run pre ++ [RunEffect.stopReceivingUpdates, RunEffect.closeDB]
    ∧ ∀ e ∈ Run pre, ∃ u, e = RunEffect.handleUpd u := by
  induction pre with
  | nil =>
    refine ⟨rfl, ?_⟩
    intro e he
    simp [Run] at he
  | cons ev rest ih =>
    cases ev with
    | update u =>
      have h' : Event.signal ∉ rest := fun hm => h (List.mem_cons_of_mem _ hm)
      obtain ⟨ih1, ih2⟩ := ih h'
      constructor
      · show Run (Event.update u :: (rest ++ Event.signal :: post)) = _
        rw [show Run (Event.update u :: (rest ++ Event.signal :: post))
            = RunEffect.handleUpd u :: Run (rest ++ Event.signal :: post)
            from rfl, ih1]
        rfl
      · intro e he
        rw [show Run (Event.update u :: rest)
            = RunEffect.handleUpd u :: Run rest from rfl] at he
        rcases List.mem_cons.mp he with h1 | h1
        · exact ⟨u, h1⟩
        · exact ih2 e h1
    | signal => exact absurd (List.mem_cons_self _ _) h

/-- C8 witness: one update, then the signal, then a late update: the late
update is not handled and the exit path stops updates then closes the
database. -/
theorem shutdown_stops_updates_and_closes_db_witness :
    Run [Event.update updEx, Event.signal, Event.update ⟨some helloMsg⟩]
      = [RunEffect.handleUpd updEx, RunEffect.stopReceivingUpdates,
          RunEffect.closeDB] := by
  have h := shutdown_stops_updates_and_closes_db [Event.update updEx]
    [Event.update ⟨some helloMsg⟩] (by decide)
  exact h.1.trans (by decide)

/-- C9: bootstrap failures are fatal before the dispatch loop: New yields
an App iff both the bot creation and the database connection succeeded;
either failure produces the fatal error (the process terminates, no App
exists to run the loop), and on success the App is fully initialized. -/
theorem bootstrap_failures_are_fatal (cfg : Config)
    (botR : Except String Bot) (dbR : Except String DB) :
    ((∃ a, New cfg botR dbR = Except.ok a) ↔
      (∃ b, botR = Except.ok b) ∧ ∃ d, dbR = Except.ok d)
    ∧ (∀ b d, New cfg (Except.ok b) (Except.ok d)
        = Except.ok ⟨cfg, d, { b with debug := cfg.isDebug }, []⟩)
    ∧ (∀ e, New cfg (Except.error e) dbR
        = Except.error ("Error creating bot: " ++ e))
    ∧ (∀ b e, New cfg (Except.ok b) (Except.error e)
        = Except.error ("Error connecting to database: " ++ e)) := by
  refine ⟨?_, fun b d => rfl, fun e => rfl, fun b e => rfl⟩
  cases botR with
  | error e => simp [New]
  | ok b =>
    cases dbR with
    | error e => simp [New]
    | ok d => simp [New]

/-- C9 witness: a failed bot creation is fatal with the bot error
message. -/
theorem bootstrap_failures_are_fatal_witness :
    New cfgEx (Except.error "bad token") (Except.ok ⟨0⟩)
      = Except.error "Error creating bot: bad token" :=
  (bootstrap_failures_are_fatal cfgEx (Except.error "bad token")
    (Except.ok ⟨0⟩)).2.2.1 "bad token"

/-- C10: each general handler performs exactly one send attempt and
returns normally whatever the send outcome: on success nothing is
logged, on failure exactly the error log line is written — the error is
never propagated, nothing is retried and no state is touched. -/
theorem send_errors_logged_not_propagated (chatID : Int) (msg : String)
    (r : SendResult) :
    (MessageResponse chatID msg r).sends = [(chatID, msg)]
    ∧ (StartResponse chatID r).sends = [(chatID, startText)]
    ∧ (HelpResponse chatID r).sends = [(chatID, helpText)]
    ∧ (r = SendResult.ok → (MessageResponse chatID msg r).logs = []
        ∧ (StartResponse chatID r).logs = []
        ∧ (HelpResponse chatID r).logs = [])
    ∧ ∀ e, r = SendResult.error e →
        (MessageResponse chatID msg r).logs = ["Error sending message: " ++ e]
        ∧ (StartResponse chatID r).logs = ["Error sending message: " ++ e]
        ∧ (HelpResponse chatID r).logs = ["Error sending message: " ++ e]
    := by
  refine ⟨rfl, rfl, rfl, ?_, ?_⟩
  · rintro rfl
    exact ⟨rfl, rfl, rfl⟩
  · rintro e rfl
    exact ⟨rfl, rfl, rfl⟩

/-- C10 witness: a failed send from MessageResponse is logged and the
handler still made exactly its one send attempt. -/
theorem send_errors_logged_not_propagated_witness :
    (MessageResponse 1 "hi" (SendResult.error "boom")).sends = [(1, "hi")]
    ∧ (MessageResponse 1 "hi" (SendResult.error "boom")).logs
      = ["Error sending message: boom"] := by
  have h := send_errors_logged_not_propagated 1 "hi" (SendResult.error "boom")
  exact ⟨h.1, (h.2.2.2.2 "boom" rfl).1⟩

end Peepobot
